import Mathlib

/-!
Shallow embedding of the localstack-go-wrapper package: the service
registry, the port-mapping resolver, the environment composer and the
container lifecycle manager, together with theorems about them.
-/

namespace LocalstackWrapper

/-- Name of the docker image for LocalStack (constant `ImageName`). -/
def ImageName : String := "docker.io/localstack/localstack"

/-- Modelled from the spec: the `services` package is not part of the
provided sources.  A `Service` is an identifier drawn from a fixed,
closed set; the extra `unknown` constructor stands for the
forward-compatible values outside the enumerated set for which the spec
keeps the registry lookup fallible. -/
inductive Service where
  | s3
  | sns
  | sqs
  | unknown (name : String)
deriving DecidableEq, Repr

/-- Modelled from the spec: string rendering of a `Service`
(`Service.String()` in the missing `services` package) is its lower-case
name. -/
def Service.string : Service → String
  | .s3 => "s3"
  | .sns => "sns"
  | .sqs => "sqs"
  | .unknown n => n

/-- Modelled from the spec: `services.GetDefaultPort` maps each supported
service to its default external TCP port (unique per service) and fails
with an unsupported-service error for values outside the closed set.
The concrete ports match the endpoints hard-wired by the session factory
(4572 for s3, 4575 for sns, 4576 for sqs). -/
def GetDefaultPort : Service → Except String Nat
  | .s3 => .ok 4572
  | .sns => .ok 4575
  | .sqs => .ok 4576
  | .unknown n => .error ("unsupported service: " ++ n)

/-- Modelled from the spec: `services.SupportedServices`, the ordered
sequence of all registry keys. -/
def SupportedServices : List Service := [.s3, .sns, .sqs]

/-- A caller-supplied service selection (`services.ServiceConfig`):
a service together with a (possibly zero or negative) port override. -/
structure ServiceConfig where
  Service : Service
  Port : Int
deriving DecidableEq, Repr

/-- One host-side binding (`nat.PortBinding`): external host IP and
external port, both kept as strings as in the source. -/
structure PortBinding where
  HostIP : String
  HostPort : String
deriving DecidableEq, Repr

/-- Accumulating decimal parser over a character list, modelling the
digit loop of Go `strconv.ParseUint` with base 10. -/
def parseDecimal : List Char → Nat → Option Nat
  | [], acc => some acc
  | c :: cs, acc =>
    if c.isDigit then parseDecimal cs (acc * 10 + (c.toNat - 48)) else none

/-- Model of Go `strconv.ParseUint(s, 10, 16)` as used by the port
parser: a non-empty all-digit string whose value fits 16 bits. -/
def parsePort (s : String) : Option Nat :=
  match s.data with
  | [] => none
  | cs =>
    match parseDecimal cs 0 with
    | none => none
    | some n => if n < 65536 then some n else none

/-- Model of the external go-connections `nat.NewPort` as used by the
source: it parses the port string, fails when it is not a decimal
number fitting a 16-bit port, and otherwise produces the canonical
`port/proto` key. -/
def natNewPort (proto portStr : String) : Except String String :=
  match parsePort portStr with
  | none => .error ("invalid port: " ++ portStr)
  | some n => .ok (toString n ++ "/" ++ proto)

/-- The port-binding table, modelling the Go map
`map[nat.Port][]nat.PortBinding` as an association list without
duplicate keys (insertion overwrites). -/
abbrev PortMap : Type := List (String × List PortBinding)

/-- Lookup in the port-binding table (reading `m[k]` in Go). -/
def mapLookup (m : PortMap) (k : String) : Option (List PortBinding) :=
  match m with
  | [] => none
  | (k1, v) :: rest => if k1 = k then some v else mapLookup rest k

/-- Insertion into the port-binding table (the Go map assignment
`m[k] = v`): overwrites an existing entry for the key, otherwise
appends a new entry. -/
def mapInsert (m : PortMap) (k : String) (v : List PortBinding) : PortMap :=
  match m with
  | [] => [(k, v)]
  | (k1, v1) :: rest =>
    if k1 = k then (k, v) :: rest else (k1, v1) :: mapInsert rest k v

/-- Model of Go `strings.ToLower`: lower-cases every character. -/
def strToLower (s : String) : String :=
  String.mk (s.data.map Char.toLower)

/-- Model of Go `strings.Join`: concatenates the strings interleaving
the separator. -/
def stringsJoin (xs : List String) (sep : String) : String :=
  match xs with
  | [] => ""
  | [x] => x
  | x :: rest => x ++ sep ++ stringsJoin rest sep

/-- Embedding of `getMappingForServiceConfig`: resolves the default
port of the selection's service (propagating a lookup failure), keeps
the default as the internal port, uses the override as the external
port unless it is below 1, and emits a single binding on host
`0.0.0.0`. -/
def getMappingForServiceConfig (cfg : ServiceConfig) :
    Except String (String × List PortBinding) :=
  match GetDefaultPort cfg.Service with
  | .error e => .error e
  | .ok dft =>
    let port : Int := if cfg.Port < 1 then (dft : Int) else cfg.Port
    match natNewPort "tcp" (toString dft) with
    | .error e => .error e
    | .ok internalPort =>
      .ok (internalPort, [{ HostIP := "0.0.0.0", HostPort := toString port }])

/-- Embedding of `getMappingForService`: resolves the default port of
the service (propagating a lookup failure) and emits a single binding
whose internal and external ports are both that default. -/
def getMappingForService (s : Service) :
    Except String (String × List PortBinding) :=
  match GetDefaultPort s with
  | .error e => .error e
  | .ok p =>
    match natNewPort "tcp" (toString p) with
    | .error e => .error e
    | .ok internalPort =>
      .ok (internalPort, [{ HostIP := "0.0.0.0", HostPort := toString p }])

/-- The loop of `hostConfig` over a non-empty selection list: each
selection's mapping is inserted into the table, and the first failure
aborts the whole resolution. -/
def resolveConfigs (cfgs : List ServiceConfig) (m : PortMap) :
    Except String PortMap :=
  match cfgs with
  | [] => .ok m
  | c :: rest =>
    match getMappingForServiceConfig c with
    | .error e => .error e
    | .ok kv => resolveConfigs rest (mapInsert m kv.1 kv.2)

/-- The loop of `hostConfig` over the full registry (empty selection
list): each supported service's default mapping is inserted into the
table, and the first failure aborts the whole resolution. -/
def resolveServices (ss : List Service) (m : PortMap) :
    Except String PortMap :=
  match ss with
  | [] => .ok m
  | s :: rest =>
    match getMappingForService s with
    | .error e => .error e
    | .ok kv => resolveServices rest (mapInsert m kv.1 kv.2)

/-- The container host configuration (`container.HostConfig`), reduced
to the only field the source populates. -/
structure HostConfig where
  PortBindings : PortMap
deriving DecidableEq, Repr

/-- Embedding of `hostConfig`: builds the port-binding table from the
selection list when it is non-empty, and from the full registry
otherwise. -/
def hostConfig (serviceConfigs : List ServiceConfig) :
    Except String HostConfig :=
  if serviceConfigs.length > 0 then
    match resolveConfigs serviceConfigs [] with
    | .error e => .error e
    | .ok m => .ok { PortBindings := m }
  else
    match resolveServices SupportedServices [] with
    | .error e => .error e
    | .ok m => .ok { PortBindings := m }

/-- The container configuration (`container.Config`), reduced to the
fields the source populates (`Env` is empty when unset, as a Go nil
slice). -/
structure ContainerConfig where
  Image : String
  Env : List String := []
deriving DecidableEq, Repr

/-- Embedding of `containerConfig`: sets the image, and for a non-empty
selection list sets the single environment entry built from
`SERVICES=` followed by the lower-cased comma-joined service names. -/
def containerConfig (img : String) (serviceConfigs : List ServiceConfig) :
    ContainerConfig :=
  if serviceConfigs.length > 0 then
    { Image := img
      Env := ["SERVICES=" ++
        strToLower (stringsJoin (serviceConfigs.map (fun s => s.Service.string)) ",")] }
  else
    { Image := img }

/-- An opaque-by-convention handle to a docker client value
(`client.Client`); the tag distinguishes different client values. -/
structure Client where
  tag : Nat
deriving DecidableEq, Repr

/-- An opaque-by-convention handle to a pull-output stream
(`io.ReadCloser`); the tag distinguishes different streams. -/
structure ReadCloser where
  tag : Nat
deriving DecidableEq, Repr

/-- Observable effects issued against the docker runtime and the
process, recorded as a trace. -/
inductive Event where
  | imagePulled (c : Client) (img : String)
  | copiedToStdout (s : ReadCloser)
  | containerStartCalled (c : Client) (id : String)
  | containerStopCalled (c : Client) (id : String) (timeout : Option Int)
  | slept (seconds : Nat)
deriving DecidableEq, Repr

/-- The docker runtime boundary as a deterministic oracle: what each
runtime call returns in the run under consideration.  `imagePull` is
additionally indexed by the position of the pull call in the routine,
so the two pulls of `pullImage` may answer differently. -/
structure DockerOps where
  newEnvClient : Except String Client
  imagePull : Nat → Client → String → Except String ReadCloser
  copyToStdout : ReadCloser → Except String Int
  containerCreate : Client → ContainerConfig → HostConfig → Except String String
  containerStart : Client → String → Except String Unit
  containerStop : Client → String → Option Int → Except String Unit

/-- Embedding of `pullImage`: the routine shadows its client parameter
with a freshly constructed environment client, pulls the image once
discarding the stream, pulls it a second time, and copies the second
stream to standard output; the first failure aborts.  The second
component is the trace of runtime effects actually issued. -/
def pullImage (ops : DockerOps) (dockerClient : Client) (img : String) :
    Except String Unit × List Event :=
  match ops.newEnvClient with
  | .error e => (.error e, [])
  | .ok fresh =>
    match ops.imagePull 0 fresh img with
    | .error e => (.error e, [.imagePulled fresh img])
    | .ok _ =>
      match ops.imagePull 1 fresh img with
      | .error e => (.error e, [.imagePulled fresh img, .imagePulled fresh img])
      | .ok out =>
        match ops.copyToStdout out with
        | .error e =>
          (.error e,
            [.imagePulled fresh img, .imagePulled fresh img, .copiedToStdout out])
        | .ok _ =>
          (.ok (),
            [.imagePulled fresh img, .imagePulled fresh img, .copiedToStdout out])

/-- The environment handle (`Localstack` struct); the context field of
the source carries no data relevant to the embedding and is dropped. -/
structure Localstack where
  ContainerID : String
  dockerClient : Client
  containerConfig : ContainerConfig
  hostConfig : HostConfig
deriving Repr

/-- Embedding of `New`: constructs the environment client, pulls the
image, builds the container and host configurations, and creates the
container; each failing step returns `(nil, err)` as in the source, and
success returns the populated handle with a nil error. -/
def New (ops : DockerOps) (cfgs : List ServiceConfig) :
    Option Localstack × Option String :=
  match ops.newEnvClient with
  | .error e => (none, some e)
  | .ok dockerClient =>
    match (pullImage ops dockerClient ImageName).1 with
    | .error e => (none, some e)
    | .ok _ =>
      let containerCfg := containerConfig ImageName cfgs
      match hostConfig cfgs with
      | .error e => (none, some e)
      | .ok hostCfg =>
        match ops.containerCreate dockerClient containerCfg hostCfg with
        | .error e => (none, some e)
        | .ok id =>
          (some { ContainerID := id, dockerClient := dockerClient
                  containerConfig := containerCfg, hostConfig := hostCfg },
           none)

/-- Embedding of `Localstack.Start`: issues the runtime start call and,
when it succeeds, sleeps five seconds before returning; a failing start
returns the error without sleeping.  The second component is the trace
of effects issued. -/
def Localstack.Start (l : Localstack) (ops : DockerOps) :
    Except String Unit × List Event :=
  match ops.containerStart l.dockerClient l.ContainerID with
  | .error e => (.error e, [.containerStartCalled l.dockerClient l.ContainerID])
  | .ok _ =>
    (.ok (),
      [.containerStartCalled l.dockerClient l.ContainerID, .slept 5])

/-- Embedding of `Localstack.Stop`: issues the runtime stop call with a
nil timeout override and, when it succeeds, sleeps five seconds before
returning; a failing stop returns the error without sleeping.  The
second component is the trace of effects issued. -/
def Localstack.Stop (l : Localstack) (ops : DockerOps) :
    Except String Unit × List Event :=
  match ops.containerStop l.dockerClient l.ContainerID none with
  | .error e =>
    (.error e, [.containerStopCalled l.dockerClient l.ContainerID none])
  | .ok _ =>
    (.ok (),
      [.containerStopCalled l.dockerClient l.ContainerID none, .slept 5])

/-- A docker oracle for concrete runs: every runtime call succeeds; the
two image pulls return distinct streams. -/
def opsOk : DockerOps where
  newEnvClient := .ok { tag := 0 }
  imagePull := fun i _ _ => .ok { tag := i }
  copyToStdout := fun _ => .ok 0
  containerCreate := fun _ _ _ => .ok "cid-1"
  containerStart := fun _ _ => .ok ()
  containerStop := fun _ _ _ => .ok ()

/-- A docker oracle whose environment-client construction fails. -/
def opsNoClient : DockerOps :=
  { opsOk with newEnvClient := .error "no docker env" }

/-- A concrete environment handle for concrete runs. -/
def sampleHandle : Localstack where
  ContainerID := "cid-1"
  dockerClient := { tag := 0 }
  containerConfig := { Image := ImageName }
  hostConfig := { PortBindings := [] }

/-! Helper lemmas about the embedded definitions. -/

theorem mapLookup_insert (m : PortMap) (k : String) (v : List PortBinding)
    (k1 : String) :
    mapLookup (mapInsert m k v) k1 = if k = k1 then some v else mapLookup m k1 := by
  induction m with
  | nil =>
    simp only [mapInsert, mapLookup]
  | cons hd tl ih =>
    obtain ⟨k2, v2⟩ := hd
    simp only [mapInsert]
    by_cases h2 : k2 = k
    · subst h2
      simp only [if_pos rfl, mapLookup]
      by_cases h3 : k2 = k1 <;> simp [h3]
    · simp only [if_neg h2, mapLookup, ih]
      by_cases h3 : k2 = k1
      · subst h3
        simp only [if_pos rfl]
        have : ¬ k = k2 := fun h => h2 h.symm
        simp [this]
      · simp [h3]

theorem getDefaultPort_cases (s : Service) (d : Nat)
    (h : GetDefaultPort s = .ok d) :
    (s = .s3 ∧ d = 4572) ∨ (s = .sns ∧ d = 4575) ∨ (s = .sqs ∧ d = 4576) := by
  cases s <;> simp [GetDefaultPort] at h <;> simp [h]

theorem getDefaultPort_key_ne (s1 s2 : Service) (d1 d2 : Nat)
    (h1 : GetDefaultPort s1 = .ok d1) (h2 : GetDefaultPort s2 = .ok d2)
    (hne : s1 ≠ s2) :
    toString d1 ++ "/tcp" ≠ toString d2 ++ "/tcp" := by
  rcases getDefaultPort_cases s1 d1 h1 with ⟨hs, hd⟩ | ⟨hs, hd⟩ | ⟨hs, hd⟩ <;>
    rcases getDefaultPort_cases s2 d2 h2 with ⟨hs2, hd2⟩ | ⟨hs2, hd2⟩ | ⟨hs2, hd2⟩ <;>
    subst hs <;> subst hs2 <;> subst hd <;> subst hd2 <;>
    first
      | exact absurd rfl hne
      | decide

theorem getMappingForServiceConfig_eq (cfg : ServiceConfig) (d : Nat)
    (h : GetDefaultPort cfg.Service = .ok d) :
    getMappingForServiceConfig cfg =
      .ok (toString d ++ "/tcp",
        [{ HostIP := "0.0.0.0",
           HostPort := toString (if cfg.Port < 1 then (d : Int) else cfg.Port) }]) := by
  obtain ⟨s, p⟩ := cfg
  rcases getDefaultPort_cases s d h with ⟨hs, hd⟩ | ⟨hs, hd⟩ | ⟨hs, hd⟩ <;>
    subst hs <;> subst hd <;> rfl

theorem getMappingForService_eq (s : Service) (d : Nat)
    (h : GetDefaultPort s = .ok d) :
    getMappingForService s =
      .ok (toString d ++ "/tcp",
        [{ HostIP := "0.0.0.0", HostPort := toString d }]) := by
  rcases getDefaultPort_cases s d h with ⟨hs, hd⟩ | ⟨hs, hd⟩ | ⟨hs, hd⟩ <;>
    subst hs <;> subst hd <;> rfl

theorem getMappingForServiceConfig_inv (cfg : ServiceConfig)
    (kv : String × List PortBinding)
    (h : getMappingForServiceConfig cfg = .ok kv) :
    ∃ d, GetDefaultPort cfg.Service = .ok d ∧
      kv = (toString d ++ "/tcp",
        [{ HostIP := "0.0.0.0",
           HostPort := toString (if cfg.Port < 1 then (d : Int) else cfg.Port) }]) := by
  cases hd : GetDefaultPort cfg.Service with
  | error e =>
    rw [getMappingForServiceConfig, hd] at h
    exact absurd h (by simp)
  | ok d =>
    refine ⟨d, rfl, ?_⟩
    rw [getMappingForServiceConfig_eq cfg d hd] at h
    exact (Except.ok.injEq _ _ ▸ h.symm)

theorem getMappingForService_inv (s : Service)
    (kv : String × List PortBinding)
    (h : getMappingForService s = .ok kv) :
    ∃ d, GetDefaultPort s = .ok d ∧
      kv = (toString d ++ "/tcp",
        [{ HostIP := "0.0.0.0", HostPort := toString d }]) := by
  cases hd : GetDefaultPort s with
  | error e =>
    rw [getMappingForService, hd] at h
    exact absurd h (by simp)
  | ok d =>
    refine ⟨d, rfl, ?_⟩
    rw [getMappingForService_eq s d hd] at h
    exact (Except.ok.injEq _ _ ▸ h.symm)

theorem resolveConfigs_append (l1 l2 : List ServiceConfig) (m : PortMap) :
    resolveConfigs (l1 ++ l2) m =
      match resolveConfigs l1 m with
      | .error e => .error e
      | .ok m1 => resolveConfigs l2 m1 := by
  induction l1 generalizing m with
  | nil => simp [resolveConfigs]
  | cons c rest ih =>
    simp only [List.cons_append, resolveConfigs]
    cases getMappingForServiceConfig c with
    | error e => rfl
    | ok kv => exact ih (mapInsert m kv.1 kv.2)

theorem resolveConfigs_lookup_of_ne (cfgs : List ServiceConfig)
    (m t : PortMap) (k : String)
    (h : resolveConfigs cfgs m = .ok t)
    (hk : ∀ c ∈ cfgs, ∀ d, GetDefaultPort c.Service = .ok d →
      toString d ++ "/tcp" ≠ k) :
    mapLookup t k = mapLookup m k := by
  induction cfgs generalizing m with
  | nil =>
    simp only [resolveConfigs, Except.ok.injEq] at h
    rw [h]
  | cons c rest ih =>
    simp only [resolveConfigs] at h
    cases hc : getMappingForServiceConfig c with
    | error e => rw [hc] at h; exact absurd h (by simp)
    | ok kv =>
      rw [hc] at h
      obtain ⟨d, hd, hkv⟩ := getMappingForServiceConfig_inv c kv hc
      have hne : kv.1 ≠ k := by
        rw [hkv]
        exact hk c (List.mem_cons_self c rest) d hd
      have := ih (mapInsert m kv.1 kv.2) h
        (fun c2 hc2 d2 hd2 => hk c2 (List.mem_cons_of_mem c hc2) d2 hd2)
      rw [this, mapLookup_insert, if_neg hne]

theorem getMappingForServiceConfig_err (cfg : ServiceConfig) (e : String)
    (h : GetDefaultPort cfg.Service = .error e) :
    getMappingForServiceConfig cfg = .error e := by
  rw [getMappingForServiceConfig, h]

theorem resolveConfigs_first_error (l1 l2 : List ServiceConfig)
    (c : ServiceConfig) (e : String) (m : PortMap)
    (h1 : ∀ x ∈ l1, ∃ d, GetDefaultPort x.Service = .ok d)
    (he : GetDefaultPort c.Service = .error e) :
    resolveConfigs (l1 ++ c :: l2) m = .error e := by
  induction l1 generalizing m with
  | nil =>
    simp only [List.nil_append, resolveConfigs,
      getMappingForServiceConfig_err c e he]
  | cons x rest ih =>
    obtain ⟨d, hd⟩ := h1 x (List.mem_cons_self x rest)
    simp only [List.cons_append, resolveConfigs,
      getMappingForServiceConfig_eq x d hd]
    exact ih _ (fun y hy => h1 y (List.mem_cons_of_mem x hy))

theorem resolveConfigs_singleton_values (cfgs : List ServiceConfig)
    (m t : PortMap)
    (hm : ∀ k v, mapLookup m k = some v → v.length = 1)
    (h : resolveConfigs cfgs m = .ok t) :
    ∀ k v, mapLookup t k = some v → v.length = 1 := by
  induction cfgs generalizing m with
  | nil =>
    simp only [resolveConfigs, Except.ok.injEq] at h
    rw [← h]
    exact hm
  | cons c rest ih =>
    simp only [resolveConfigs] at h
    cases hc : getMappingForServiceConfig c with
    | error e => rw [hc] at h; exact absurd h (by simp)
    | ok kv =>
      rw [hc] at h
      obtain ⟨d, hd, hkv⟩ := getMappingForServiceConfig_inv c kv hc
      refine ih (mapInsert m kv.1 kv.2) ?_ h
      intro k v hv
      rw [mapLookup_insert] at hv
      by_cases hk : kv.1 = k
      · rw [if_pos hk] at hv
        cases hv
        simp [hkv]
      · rw [if_neg hk] at hv
        exact hm k v hv

theorem resolveServices_singleton_values (ss : List Service)
    (m t : PortMap)
    (hm : ∀ k v, mapLookup m k = some v → v.length = 1)
    (h : resolveServices ss m = .ok t) :
    ∀ k v, mapLookup t k = some v → v.length = 1 := by
  induction ss generalizing m with
  | nil =>
    simp only [resolveServices, Except.ok.injEq] at h
    rw [← h]
    exact hm
  | cons s rest ih =>
    simp only [resolveServices] at h
    cases hc : getMappingForService s with
    | error e => rw [hc] at h; exact absurd h (by simp)
    | ok kv =>
      rw [hc] at h
      obtain ⟨d, hd, hkv⟩ := getMappingForService_inv s kv hc
      refine ih (mapInsert m kv.1 kv.2) ?_ h
      intro k v hv
      rw [mapLookup_insert] at hv
      by_cases hk : kv.1 = k
      · rw [if_pos hk] at hv
        cases hv
        simp [hkv]
      · rw [if_neg hk] at hv
        exact hm k v hv

theorem strToLower_append (a b : String) :
    strToLower (a ++ b) = strToLower a ++ strToLower b := by
  obtain ⟨la⟩ := a
  obtain ⟨lb⟩ := b
  show String.mk ((la ++ lb).map Char.toLower) =
    String.mk (la.map Char.toLower) ++ String.mk (lb.map Char.toLower)
  rw [List.map_append]
  rfl

theorem strToLower_stringsJoin (xs : List String) :
    strToLower (stringsJoin xs ",") = stringsJoin (xs.map strToLower) "," := by
  match xs with
  | [] => rfl
  | [x] => rfl
  | x :: y :: rest =>
    have ih := strToLower_stringsJoin (y :: rest)
    simp only [stringsJoin, List.map]
    rw [strToLower_append, strToLower_append, ih]
    rfl

/-! Claim theorems. -/

/-- C1: for every service selection whose registry lookup succeeds, the
resolved binding keys the internal port to the service's registry
default port, and its external port equals the selection's override
when that override is a positive integer, and equals the default port
when the override is zero or negative. -/
theorem c1_selection_binding (cfg : ServiceConfig) (d : Nat)
    (h : GetDefaultPort cfg.Service = .ok d) :
    ∃ b : PortBinding,
      getMappingForServiceConfig cfg = .ok (toString d ++ "/tcp", [b]) ∧
      b.HostIP = "0.0.0.0" ∧
      (1 ≤ cfg.Port → b.HostPort = toString cfg.Port) ∧
      (cfg.Port ≤ 0 → b.HostPort = toString (d : Int)) := by
  refine ⟨{ HostIP := "0.0.0.0",
            HostPort := toString (if cfg.Port < 1 then (d : Int) else cfg.Port) },
    getMappingForServiceConfig_eq cfg d h, rfl, ?_, ?_⟩
  · intro hp
    rw [if_neg (by omega)]
  · intro hp
    rw [if_pos (by omega)]

/-- Witness for C1 at the selection of s3 with override 9000. -/
theorem c1_selection_binding_witness :
    GetDefaultPort Service.s3 = .ok 4572 ∧
    (∃ b : PortBinding,
      getMappingForServiceConfig { Service := Service.s3, Port := 9000 } =
        .ok (toString 4572 ++ "/tcp", [b]) ∧
      b.HostIP = "0.0.0.0" ∧
      (1 ≤ ({ Service := Service.s3, Port := 9000 } : ServiceConfig).Port →
        b.HostPort = toString ({ Service := Service.s3, Port := 9000 } : ServiceConfig).Port) ∧
      (({ Service := Service.s3, Port := 9000 } : ServiceConfig).Port ≤ 0 →
        b.HostPort = toString ((4572 : Nat) : Int))) :=
  ⟨rfl, c1_selection_binding { Service := Service.s3, Port := 9000 } 4572 rfl⟩

/-- C2: for the empty selection list, the resolver produces a table
with exactly one entry per registry-supported service, each binding the
service's default port internally and externally on host 0.0.0.0. -/
theorem c2_empty_selection_table :
    hostConfig [] = .ok { PortBindings := [
      ("4572/tcp", [{ HostIP := "0.0.0.0", HostPort := "4572" }]),
      ("4575/tcp", [{ HostIP := "0.0.0.0", HostPort := "4575" }]),
      ("4576/tcp", [{ HostIP := "0.0.0.0", HostPort := "4576" }])] } ∧
    SupportedServices = [Service.s3, Service.sns, Service.sqs] ∧
    GetDefaultPort Service.s3 = .ok 4572 ∧
    GetDefaultPort Service.sns = .ok 4575 ∧
    GetDefaultPort Service.sqs = .ok 4576 :=
  ⟨rfl, rfl, rfl, rfl, rfl⟩

/-- C3: a failing registry lookup for a selection (every selection
before it resolving) aborts the whole resolution with exactly that
error, so no port-binding table, partial or otherwise, is produced. -/
theorem c3_lookup_failure_aborts (l1 l2 : List ServiceConfig)
    (c : ServiceConfig) (e : String)
    (h1 : ∀ x ∈ l1, ∃ d, GetDefaultPort x.Service = .ok d)
    (he : GetDefaultPort c.Service = .error e) :
    hostConfig (l1 ++ c :: l2) = .error e := by
  unfold hostConfig
  rw [if_pos (by simp), resolveConfigs_first_error l1 l2 c e [] h1 he]

/-- Witness for C3: an unsupported service amid supported ones makes
the whole resolution fail with the lookup error. -/
theorem c3_lookup_failure_aborts_witness :
    GetDefaultPort (Service.unknown "dynamodb") =
      .error "unsupported service: dynamodb" ∧
    hostConfig [{ Service := Service.s3, Port := 0 },
      { Service := Service.unknown "dynamodb", Port := 0 },
      { Service := Service.sqs, Port := 0 }] =
      .error "unsupported service: dynamodb" :=
  ⟨rfl,
    c3_lookup_failure_aborts [{ Service := Service.s3, Port := 0 }]
      [{ Service := Service.sqs, Port := 0 }]
      { Service := Service.unknown "dynamodb", Port := 0 }
      "unsupported service: dynamodb"
      (by intro x hx; simp at hx; subst hx; exact ⟨4572, rfl⟩)
      rfl⟩

/-- C4: for a non-empty selection list, the environment list is exactly
one entry, SERVICES= followed by the selections' lower-cased names
joined by commas in input order; for the empty list it is empty. -/
theorem c4_services_env (cfgs : List ServiceConfig) :
    (cfgs ≠ [] → (containerConfig ImageName cfgs).Env =
      ["SERVICES=" ++
        stringsJoin (cfgs.map (fun c => strToLower c.Service.string)) ","]) ∧
    (cfgs = [] → (containerConfig ImageName cfgs).Env = []) := by
  constructor
  · intro hne
    have hlen : cfgs.length > 0 := List.length_pos.mpr hne
    simp only [containerConfig, if_pos hlen]
    rw [strToLower_stringsJoin, List.map_map]
    rfl
  · intro h
    subst h
    rfl

/-- Witness for C4 at a two-element selection list. -/
theorem c4_services_env_witness :
    (containerConfig ImageName [{ Service := Service.s3, Port := 9000 },
      { Service := Service.sqs, Port := 0 }]).Env = ["SERVICES=s3,sqs"] :=
  (c4_services_env [{ Service := Service.s3, Port := 9000 },
    { Service := Service.sqs, Port := 0 }]).1 (by simp)

/-- C5: when several selections share a service, the resolver keeps the
binding of the last such selection without error: at the shared
internal-port key the table holds exactly the last selection's
binding. -/
theorem c5_last_write_wins (l1 l2 : List ServiceConfig) (b : ServiceConfig)
    (t : HostConfig) (d : Nat)
    (hd : GetDefaultPort b.Service = .ok d)
    (hlast : ∀ c ∈ l2, c.Service ≠ b.Service)
    (hok : hostConfig (l1 ++ b :: l2) = .ok t) :
    mapLookup t.PortBindings (toString d ++ "/tcp") =
      some [{ HostIP := "0.0.0.0",
              HostPort := toString (if b.Port < 1 then (d : Int) else b.Port) }] := by
  unfold hostConfig at hok
  rw [if_pos (by simp)] at hok
  cases hr : resolveConfigs (l1 ++ b :: l2) [] with
  | error e => rw [hr] at hok; exact absurd hok (by simp)
  | ok m =>
    rw [hr] at hok
    simp only [Except.ok.injEq] at hok
    rw [resolveConfigs_append] at hr
    cases hr1 : resolveConfigs l1 [] with
    | error e => rw [hr1] at hr; exact absurd hr (by simp)
    | ok m1 =>
      rw [hr1] at hr
      simp only at hr
      rw [resolveConfigs, getMappingForServiceConfig_eq b d hd] at hr
      have huntouched := resolveConfigs_lookup_of_ne l2 _ m
        (toString d ++ "/tcp") hr
        (fun c hc d2 hd2 =>
          getDefaultPort_key_ne c.Service b.Service d2 d hd2 hd (hlast c hc))
      rw [← hok, huntouched, mapLookup_insert, if_pos rfl]

/-- Witness for C5: two selections for s3, the later override 2222
wins and no error is raised. -/
theorem c5_last_write_wins_witness :
    hostConfig [{ Service := Service.s3, Port := 1111 },
      { Service := Service.s3, Port := 2222 }] =
      .ok { PortBindings :=
        [("4572/tcp", [{ HostIP := "0.0.0.0", HostPort := "2222" }])] } ∧
    mapLookup [("4572/tcp", [{ HostIP := "0.0.0.0", HostPort := "2222" }])]
      (toString 4572 ++ "/tcp") =
      some [{ HostIP := "0.0.0.0",
              HostPort := toString (if (2222 : Int) < 1 then ((4572 : Nat) : Int)
                else (2222 : Int)) }] :=
  ⟨rfl,
    c5_last_write_wins [{ Service := Service.s3, Port := 1111 }] []
      { Service := Service.s3, Port := 2222 }
      { PortBindings :=
        [("4572/tcp", [{ HostIP := "0.0.0.0", HostPort := "2222" }])] }
      4572 rfl (by intro c hc; exact absurd hc (List.not_mem_nil c)) rfl⟩

/-- C6: the setup operation returns no handle exactly when it returns
an error, and every failing step (client construction, image pull,
host-config resolution, container creation) yields that step's error
with a nil handle. -/
theorem c6_new_no_partial_handle (ops : DockerOps) (cfgs : List ServiceConfig) :
    ((New ops cfgs).1 = none ↔ (New ops cfgs).2.isSome) ∧
    (∀ e, ops.newEnvClient = .error e → New ops cfgs = (none, some e)) ∧
    (∀ c e, ops.newEnvClient = .ok c →
      (pullImage ops c ImageName).1 = .error e → New ops cfgs = (none, some e)) ∧
    (∀ c u e, ops.newEnvClient = .ok c → (pullImage ops c ImageName).1 = .ok u →
      hostConfig cfgs = .error e → New ops cfgs = (none, some e)) ∧
    (∀ c u h e, ops.newEnvClient = .ok c → (pullImage ops c ImageName).1 = .ok u →
      hostConfig cfgs = .ok h →
      ops.containerCreate c (containerConfig ImageName cfgs) h = .error e →
      New ops cfgs = (none, some e)) := by
  refine ⟨?_, ?_, ?_, ?_, ?_⟩
  · unfold New
    cases hc : ops.newEnvClient with
    | error e => simp
    | ok c =>
      cases hp : (pullImage ops c ImageName).1 with
      | error e => simp [hp]
      | ok u =>
        cases hh : hostConfig cfgs with
        | error e => simp [hp, hh]
        | ok h =>
          cases hcc : ops.containerCreate c (containerConfig ImageName cfgs) h with
          | error e => simp [hp, hh, hcc]
          | ok id => simp [hp, hh, hcc]
  · intro e h1
    simp [New, h1]
  · intro c e h1 h2
    simp [New, h1, h2]
  · intro c u e h1 h2 h3
    simp [New, h1, h2, h3]
  · intro c u h e h1 h2 h3 h4
    simp [New, h1, h2, h3, h4]

/-- Witness for C6: a failing client construction yields a nil handle
with that error. -/
theorem c6_new_no_partial_handle_witness :
    New opsNoClient [] = (none, some "no docker env") :=
  (c6_new_no_partial_handle opsNoClient []).2.1 "no docker env" rfl

/-- C7: Start issues the runtime start call and then waits the fixed
5-second settle interval before returning success; Stop issues the
runtime stop call with a nil timeout override and then waits the same
interval; a failing runtime call makes each return that error. -/
theorem c7_start_stop_settle (l : Localstack) (ops : DockerOps) :
    (ops.containerStart l.dockerClient l.ContainerID = .ok () →
      l.Start ops = (.ok (),
        [.containerStartCalled l.dockerClient l.ContainerID, .slept 5])) ∧
    (∀ e, ops.containerStart l.dockerClient l.ContainerID = .error e →
      l.Start ops = (.error e,
        [.containerStartCalled l.dockerClient l.ContainerID])) ∧
    (ops.containerStop l.dockerClient l.ContainerID none = .ok () →
      l.Stop ops = (.ok (),
        [.containerStopCalled l.dockerClient l.ContainerID none, .slept 5])) ∧
    (∀ e, ops.containerStop l.dockerClient l.ContainerID none = .error e →
      l.Stop ops = (.error e,
        [.containerStopCalled l.dockerClient l.ContainerID none])) := by
  refine ⟨?_, ?_, ?_, ?_⟩
  · intro h
    simp [Localstack.Start, h]
  · intro e h
    simp [Localstack.Start, h]
  · intro h
    simp [Localstack.Stop, h]
  · intro e h
    simp [Localstack.Stop, h]

/-- Witness for C7 on a run where both runtime calls succeed. -/
theorem c7_start_stop_settle_witness :
    sampleHandle.Start opsOk = (.ok (),
      [.containerStartCalled sampleHandle.dockerClient sampleHandle.ContainerID,
        .slept 5]) ∧
    sampleHandle.Stop opsOk = (.ok (),
      [.containerStopCalled sampleHandle.dockerClient sampleHandle.ContainerID none,
        .slept 5]) :=
  ⟨(c7_start_stop_settle sampleHandle opsOk).1 rfl,
    (c7_start_stop_settle sampleHandle opsOk).2.2.1 rfl⟩

/-- C8: every entry of a successfully resolved port-binding table maps
its internal port to a list containing exactly one binding, whichever
branch of the resolver produced it. -/
theorem c8_singleton_bindings (cfgs : List ServiceConfig) (t : HostConfig)
    (h : hostConfig cfgs = .ok t) (k : String) (v : List PortBinding)
    (hv : mapLookup t.PortBindings k = some v) : v.length = 1 := by
  have hnil : ∀ k1 v1, mapLookup ([] : PortMap) k1 = some v1 → v1.length = 1 := by
    intro k1 v1 hv1
    simp [mapLookup] at hv1
  unfold hostConfig at h
  by_cases hlen : cfgs.length > 0
  · rw [if_pos hlen] at h
    cases hr : resolveConfigs cfgs [] with
    | error e => rw [hr] at h; exact absurd h (by simp)
    | ok m =>
      rw [hr] at h
      simp only [Except.ok.injEq] at h
      rw [← h] at hv
      exact resolveConfigs_singleton_values cfgs [] m hnil hr k v hv
  · rw [if_neg hlen] at h
    cases hr : resolveServices SupportedServices [] with
    | error e => rw [hr] at h; exact absurd h (by simp)
    | ok m =>
      rw [hr] at h
      simp only [Except.ok.injEq] at h
      rw [← h] at hv
      exact resolveServices_singleton_values SupportedServices [] m hnil hr k v hv

/-- Witness for C8 at a single selection with an override. -/
theorem c8_singleton_bindings_witness :
    ([{ HostIP := "0.0.0.0", HostPort := "9000" }] : List PortBinding).length = 1 :=
  c8_singleton_bindings [{ Service := Service.s3, Port := 9000 }]
    { PortBindings :=
      [("4572/tcp", [{ HostIP := "0.0.0.0", HostPort := "9000" }])] }
    rfl "4572/tcp" [{ HostIP := "0.0.0.0", HostPort := "9000" }] rfl

/-- C9: the pull routine pulls the same image twice on its fresh
client; the first stream is discarded, the second is what reaches
standard output, and a failure of either pull or of the copy aborts
with that error. -/
theorem c9_double_pull (ops : DockerOps) (c : Client) (img : String) :
    (∀ fresh s0 s1 n, ops.newEnvClient = .ok fresh →
      ops.imagePull 0 fresh img = .ok s0 →
      ops.imagePull 1 fresh img = .ok s1 →
      ops.copyToStdout s1 = .ok n →
      pullImage ops c img = (.ok (),
        [.imagePulled fresh img, .imagePulled fresh img, .copiedToStdout s1])) ∧
    (∀ fresh e, ops.newEnvClient = .ok fresh →
      ops.imagePull 0 fresh img = .error e →
      pullImage ops c img = (.error e, [.imagePulled fresh img])) ∧
    (∀ fresh s0 e, ops.newEnvClient = .ok fresh →
      ops.imagePull 0 fresh img = .ok s0 →
      ops.imagePull 1 fresh img = .error e →
      pullImage ops c img = (.error e,
        [.imagePulled fresh img, .imagePulled fresh img])) ∧
    (∀ fresh s0 s1 e, ops.newEnvClient = .ok fresh →
      ops.imagePull 0 fresh img = .ok s0 →
      ops.imagePull 1 fresh img = .ok s1 →
      ops.copyToStdout s1 = .error e →
      pullImage ops c img = (.error e,
        [.imagePulled fresh img, .imagePulled fresh img, .copiedToStdout s1])) := by
  refine ⟨?_, ?_, ?_, ?_⟩
  · intro fresh s0 s1 n h1 h2 h3 h4
    simp [pullImage, h1, h2, h3, h4]
  · intro fresh e h1 h2
    simp [pullImage, h1, h2]
  · intro fresh s0 e h1 h2 h3
    simp [pullImage, h1, h2, h3]
  · intro fresh s0 s1 e h1 h2 h3 h4
    simp [pullImage, h1, h2, h3, h4]

/-- Witness for C9: with the all-succeeding oracle, the routine pulls
twice and copies the second pull's stream (tag 1), not the first
(tag 0). -/
theorem c9_double_pull_witness :
    pullImage opsOk { tag := 7 } ImageName = (.ok (),
      [.imagePulled { tag := 0 } ImageName, .imagePulled { tag := 0 } ImageName,
        .copiedToStdout { tag := 1 }]) :=
  (c9_double_pull opsOk { tag := 7 } ImageName).1
    { tag := 0 } { tag := 0 } { tag := 1 } 0 rfl rfl rfl rfl

/-- C10: the pull routine's behaviour is independent of the client
value passed to it: any two client arguments give identical results
and identical effect traces, since the routine only ever uses the
fresh client it constructs itself. -/
theorem c10_pull_ignores_client (ops : DockerOps) (c1 c2 : Client)
    (img : String) :
    pullImage ops c1 img = pullImage ops c2 img := rfl

end LocalstackWrapper
